import Mathlib

/-
Verification of the fallback-caching read path and health aggregation of the
b3datetime service, as a shallow embedding of
src/.history/src/services/redis_service_20251226093410.py and
src/src/routers/health.py.

Modelling conventions:
- time instants and durations are integers (whole seconds), so the Python
  int(...) truncation on a whole-second age is the identity;
- the remote store reply for one get call is a StoreResp value: a returned
  string (possibly empty), a missing key, a network error or a timeout;
- the redis client handle is Option Unit: none models redis_client = None
  (the disconnected state), some () a constructed client;
- Python truthiness is modelled explicitly where the source relies on it
  (if value: for an optional string, int(age) if age else None for an
  optional float age);
- raised HTTPException failures of get_value are modelled as the error side
  of an Except; raised redis exceptions are the error side of redis_get,
  caught by the try/except of _get_from_redis.
-/

namespace B3

/-- Outcome of one low-level store read for a key. -/
inductive StoreResp : Type where
  | value : String → StoreResp
  | missing : StoreResp
  | netError : StoreResp
  | timeout : StoreResp
deriving DecidableEq

/-- Exceptions the redis client may raise on a get call. -/
inductive PyExc : Type where
  | netError : PyExc
  | timeout : PyExc
deriving DecidableEq

/-- Outcome of the connection attempt made in RedisService._initialize_connection:
the redis.from_url construction and the initial ping. -/
inductive ConnAttempt : Type where
  | success : ConnAttempt
  | connectError : ConnAttempt
  | pingError : ConnAttempt
deriving DecidableEq

/-- redis_client.get(key): returns the stored string (decode_responses gives a
string, possibly empty), None for a missing key, or raises. -/
def redis_get : StoreResp → Except PyExc (Option String)
  | StoreResp.value s => Except.ok (some s)
  | StoreResp.missing => Except.ok none
  | StoreResp.netError => Except.error PyExc.netError
  | StoreResp.timeout => Except.error PyExc.timeout

/-- Python truthiness of an Optional[str]: None and the empty string are falsy. -/
def pyTruthyStr : Option String → Bool
  | none => false
  | some s => decide (s ≠ "")

/-- RedisCache: local cache mapping a key to the pair (value, timestamp),
the field cache of the Python class. -/
structure RedisCache : Type where
  cache : String → Option (String × Int)

/-- RedisCache.set: store value under key with the current timestamp,
overwriting any prior entry. -/
def RedisCache.set (c : RedisCache) (key value : String) (now : Int) : RedisCache :=
  ⟨fun k => if k = key then some (value, now) else c.cache k⟩

/-- RedisCache.get: the stored (value, timestamp) pair for key, or None. -/
def RedisCache.get (c : RedisCache) (key : String) : Option (String × Int) :=
  c.cache key

/-- RedisCache.get_age_seconds: elapsed seconds since the entry was stored,
or None when no entry exists. -/
def RedisCache.get_age_seconds (c : RedisCache) (key : String) (now : Int) : Option Int :=
  match c.cache key with
  | none => none
  | some (_, ts) => some (now - ts)

/-- RedisCache.is_expired: true when no entry exists or the age strictly
exceeds the TTL. -/
def RedisCache.is_expired (c : RedisCache) (key : String) (now ttl : Int) : Bool :=
  match c.cache key with
  | none => true
  | some (_, ts) => decide (now - ts > ttl)

/-- The empty cache a fresh RedisService starts with. -/
def RedisCache.emptyCache : RedisCache :=
  ⟨fun _ => none⟩

/-- RedisService._initialize_connection: on any failure of construction or of
the initial ping, the exception is caught and redis_client is left as None. -/
def initialize_connection : ConnAttempt → Option Unit
  | ConnAttempt.success => some ()
  | ConnAttempt.connectError => none
  | ConnAttempt.pingError => none

/-- RedisService._get_from_redis: None when disconnected; otherwise one
redis_get call inside try/except. A truthy returned value is written into the
local cache; any raised exception is caught and becomes None. Returns the
value (as Python returns it, also when falsy) with the updated cache. -/
def get_from_redis (client : Option Unit) (resp : StoreResp) (cache : RedisCache)
    (key : String) (now : Int) : Option String × RedisCache :=
  match client with
  | none => (none, cache)
  | some _ =>
    match redis_get resp with
    | Except.error _ => (none, cache)
    | Except.ok none => (none, cache)
    | Except.ok (some s) =>
      if s = "" then
        (some s, cache)
      else
        (some s, cache.set key s now)

/-- The failure detail carried by the 503 HTTPException raised in
RedisService.get_value: either no cached value exists, or the cache entry
expired, with its age in seconds. -/
inductive Unavailable : Type where
  | noCachedValue : String → Unavailable
  | cacheExpired : String → Int → Unavailable
deriving DecidableEq

/-- The fallback tail of RedisService.get_value, entered when the fetched
value is falsy: consult the local cache, fail with noCachedValue when no
entry exists, fail with cacheExpired when the age is truthy and strictly
above the TTL, and otherwise return the cached value. -/
def resolve_fallback (cache1 : RedisCache) (key : String) (now ttl : Int) :
    Except Unavailable String × RedisCache :=
  match cache1.get key with
  | none => (Except.error (Unavailable.noCachedValue key), cache1)
  | some (cached_value, ts) =>
    if now - ts ≠ 0 ∧ now - ts > ttl then
      (Except.error (Unavailable.cacheExpired key (now - ts)), cache1)
    else
      (Except.ok cached_value, cache1)

/-- The head of RedisService.get_value applied to the fetched pair: a truthy
fetched value is returned as is; otherwise the local-cache fallback runs on
the cache state left by the fetch. -/
def get_value_after_fetch (fetched : Option String × RedisCache)
    (key : String) (now ttl : Int) : Except Unavailable String × RedisCache :=
  if pyTruthyStr fetched.1 then
    (Except.ok (fetched.1.getD ""), fetched.2)
  else
    resolve_fallback fetched.2 key now ttl

/-- RedisService.get_value: fetch from redis, then either return the truthy
value or fall back to the local cache under the TTL policy. -/
def get_value (client : Option Unit) (resp : StoreResp) (cache : RedisCache)
    (key : String) (now ttl : Int) : Except Unavailable String × RedisCache :=
  get_value_after_fetch (get_from_redis client resp cache key now) key now ttl

/-- The configured open-hours key, settings.redis_key_open. -/
def settings_redis_key_open : String := "b3:trading:hours:open"

/-- The configured close-hours key, settings.redis_key_close. -/
def settings_redis_key_close : String := "b3:trading:hours:close"

/-- The configured cache TTL, settings.cache_ttl_seconds. -/
def settings_cache_ttl_seconds : Int := 3600

/-- RedisService.is_connected: False when redis_client is None, otherwise the
outcome of a ping (False when the ping raises). -/
def is_connected (client : Option Unit) (pingOk : Bool) : Bool :=
  match client with
  | none => false
  | some _ => pingOk

/-- The expression int(age) if age else None of get_cache_status: a None or
zero age reports as None (Python truthiness of the float age). -/
def pyTruthyAgeInt : Option Int → Option Int
  | none => none
  | some a => if a ≠ 0 then some a else none

/-- The dictionary returned by RedisService.get_cache_status. -/
structure CacheStatus : Type where
  redis_connected : Bool
  open_cache_age_seconds : Option Int
  close_cache_age_seconds : Option Int
  cache_ttl_seconds : Int
deriving DecidableEq

/-- RedisService.get_cache_status: connectivity plus the truthiness-filtered
ages of the two tracked keys. -/
def get_cache_status (client : Option Unit) (pingOk : Bool) (cache : RedisCache)
    (now ttl : Int) : CacheStatus :=
  { redis_connected := is_connected client pingOk
    open_cache_age_seconds :=
      pyTruthyAgeInt (cache.get_age_seconds settings_redis_key_open now)
    close_cache_age_seconds :=
      pyTruthyAgeInt (cache.get_age_seconds settings_redis_key_close now)
    cache_ttl_seconds := ttl }

/-- The overall status field computed by the health_check route handler. -/
inductive HealthStatus : Type where
  | healthy : HealthStatus
  | degraded : HealthStatus
  | unhealthy : HealthStatus
deriving DecidableEq

/-- health_check of src/src/routers/health.py: healthy when redis_connected;
otherwise degraded when open_cache_age_seconds is not None, else unhealthy. -/
def health_check (client : Option Unit) (pingOk : Bool) (cache : RedisCache)
    (now ttl : Int) : HealthStatus :=
  let cs := get_cache_status client pingOk cache now ttl
  if cs.redis_connected then
    HealthStatus.healthy
  else if cs.open_cache_age_seconds ≠ none then
    HealthStatus.degraded
  else
    HealthStatus.unhealthy

/-- A store behaviour in which the fetch yields no truthy-or-falsy value at
all: the client is disconnected, the key is missing upstream, or the call
fails with a network error or timeout. -/
def storeNoValue (client : Option Unit) (resp : StoreResp) : Prop :=
  client = none ∨ resp = StoreResp.missing ∨
    resp = StoreResp.netError ∨ resp = StoreResp.timeout

/-- One resolve invocation in a trace: the client state and store behaviour
seen by that call, the key, the call time and the TTL in force. -/
structure ResolveOp : Type where
  client : Option Unit
  resp : StoreResp
  key : String
  now : Int
  ttl : Int

/-- The cache state after one resolve call. -/
def stepResolve (cache : RedisCache) (op : ResolveOp) : RedisCache :=
  (get_value op.client op.resp cache op.key op.now op.ttl).2

/-- The cache state after a sequence of resolve calls. -/
def runResolves (ops : List ResolveOp) (cache : RedisCache) : RedisCache :=
  ops.foldl stepResolve cache

/-- A concrete cache holding only the open key, stored at time 0. -/
def cacheOpenAt0 : RedisCache :=
  ⟨fun k => if k = settings_redis_key_open then some ("10:00", 0) else none⟩

/-- A concrete cache holding only the close key, stored at time 0. -/
def cacheCloseOnly : RedisCache :=
  ⟨fun k => if k = settings_redis_key_close then some ("17:00", 0) else none⟩

/-- When the store yields no value, the fetch returns the absence signal and
leaves the cache untouched. -/
theorem get_from_redis_of_storeNoValue (client : Option Unit) (resp : StoreResp)
    (cache : RedisCache) (key : String) (now : Int) (h : storeNoValue client resp) :
    get_from_redis client resp cache key now = (none, cache) := by
  rcases h with h | h | h | h
  · subst h; rfl
  · subst h; cases client <;> rfl
  · subst h; cases client <;> rfl
  · subst h; cases client <;> rfl

/-- When the store yields no value, get_value is exactly the local-cache
fallback on the unchanged cache. -/
theorem get_value_of_storeNoValue (client : Option Unit) (resp : StoreResp)
    (cache : RedisCache) (key : String) (now ttl : Int) (h : storeNoValue client resp) :
    get_value client resp cache key now ttl = resolve_fallback cache key now ttl := by
  unfold get_value
  rw [get_from_redis_of_storeNoValue client resp cache key now h]
  rfl

/-- C2: with a cache entry whose age equals the TTL exactly and the store
returning no value, resolve does not fail with cache-expired: the strict
greater-than comparison lets the call return the cached value. -/
theorem age_equal_ttl_not_expired (client : Option Unit) (resp : StoreResp)
    (cache : RedisCache) (key v : String) (ts now ttl : Int)
    (hnv : storeNoValue client resp) (hc : cache.get key = some (v, ts))
    (hage : now - ts = ttl) :
    get_value client resp cache key now ttl = (Except.ok v, cache) := by
  rw [get_value_of_storeNoValue client resp cache key now ttl hnv]
  unfold resolve_fallback
  simp only [hc]
  rw [if_neg (by omega)]

/-- Witness for C2 at the open key: age 3600 with TTL 3600 returns the value. -/
theorem age_equal_ttl_not_expired_witness :
    storeNoValue none StoreResp.missing ∧
    get_value none StoreResp.missing cacheOpenAt0 settings_redis_key_open 3600 3600 =
      (Except.ok "10:00", cacheOpenAt0) :=
  ⟨Or.inl rfl,
    age_equal_ttl_not_expired none StoreResp.missing cacheOpenAt0
      settings_redis_key_open "10:00" 0 3600 3600 (Or.inl rfl) rfl (by decide)⟩

/-- C3 counterexample: a call made exactly at T + TTL (entry stored at 0,
call at 3600, TTL 3600) with the store down returns the cached value and does
not fail at all, contradicting the claim that calls at or after T + TTL fail
with cache-expired. -/
theorem resolve_at_exact_ttl_returns_value :
    (get_value none StoreResp.missing cacheOpenAt0 settings_redis_key_open 3600 3600).1 =
      Except.ok "10:00" ∧
    ∀ e : Unavailable,
      (get_value none StoreResp.missing cacheOpenAt0 settings_redis_key_open 3600 3600).1 ≠
        Except.error e :=
  ⟨rfl, fun _ h => Except.noConfusion h⟩

/-- C3 amended: with a nonnegative TTL, a call made strictly after T + TTL
while the store returns no value fails with cache-expired, and the reported
age is at least the TTL. -/
theorem resolve_strictly_after_ttl_expired (client : Option Unit) (resp : StoreResp)
    (cache : RedisCache) (key v : String) (ts now ttl : Int)
    (hnv : storeNoValue client resp) (hc : cache.get key = some (v, ts))
    (httl : 0 ≤ ttl) (hage : ttl < now - ts) :
    (get_value client resp cache key now ttl).1 =
      Except.error (Unavailable.cacheExpired key (now - ts)) ∧
    ttl ≤ now - ts := by
  constructor
  · rw [get_value_of_storeNoValue client resp cache key now ttl hnv]
    unfold resolve_fallback
    simp only [hc]
    rw [if_pos (by omega)]
  · omega

/-- Witness for C3 amended: age 3601 with TTL 3600 fails with cache-expired. -/
theorem resolve_strictly_after_ttl_expired_witness :
    (get_value none StoreResp.timeout cacheOpenAt0 settings_redis_key_open 3601 3600).1 =
      Except.error (Unavailable.cacheExpired settings_redis_key_open (3601 - 0)) ∧
    (3600 : Int) ≤ 3601 - 0 :=
  resolve_strictly_after_ttl_expired none StoreResp.timeout cacheOpenAt0
    settings_redis_key_open "10:00" 0 3601 3600 (Or.inl rfl) rfl (by decide) (by decide)

/-- C4: for a key with no cache entry, resolve fails with no-cached-value
whenever the store yields no value, whether the store is reachable (missing
key, network error, timeout) or disconnected; the cache is unchanged. -/
theorem resolve_cache_miss_fails (client : Option Unit) (resp : StoreResp)
    (cache : RedisCache) (key : String) (now ttl : Int)
    (hnv : storeNoValue client resp) (hc : cache.get key = none) :
    get_value client resp cache key now ttl =
      (Except.error (Unavailable.noCachedValue key), cache) := by
  rw [get_value_of_storeNoValue client resp cache key now ttl hnv]
  unfold resolve_fallback
  simp only [hc]

/-- Witness for C4 on the empty cache. -/
theorem resolve_cache_miss_fails_witness :
    get_value none StoreResp.missing RedisCache.emptyCache "k" 0 3600 =
      (Except.error (Unavailable.noCachedValue "k"), RedisCache.emptyCache) :=
  resolve_cache_miss_fails none StoreResp.missing RedisCache.emptyCache "k" 0 3600
    (Or.inl rfl) rfl

/-- C5: a key fetched at time ts with value v, resolved strictly before
ts + TTL while the store returns no value, yields exactly v and leaves the
cache unchanged. -/
theorem resolve_fresh_cache_returns_value (client : Option Unit) (resp : StoreResp)
    (cache : RedisCache) (key v : String) (ts now ttl : Int)
    (hnv : storeNoValue client resp) (hc : cache.get key = some (v, ts))
    (hage : now - ts < ttl) :
    get_value client resp cache key now ttl = (Except.ok v, cache) := by
  rw [get_value_of_storeNoValue client resp cache key now ttl hnv]
  unfold resolve_fallback
  simp only [hc]
  rw [if_neg (by omega)]

/-- Witness for C5: age 100 with TTL 3600 while redis raises a network error. -/
theorem resolve_fresh_cache_returns_value_witness :
    get_value (some ()) StoreResp.netError cacheOpenAt0 settings_redis_key_open 100 3600 =
      (Except.ok "10:00", cacheOpenAt0) :=
  resolve_fresh_cache_returns_value (some ()) StoreResp.netError cacheOpenAt0
    settings_redis_key_open "10:00" 0 100 3600 (Or.inr (Or.inr (Or.inl rfl))) rfl (by decide)

/-- C1 counterexample: with the client constructed but the ping failing, and
the local cache holding a fresh entry for the close key only (so a tracked
key has a non-absent cache age), health_check reports unhealthy, not the
degraded status the claim requires. -/
theorem health_close_only_reports_unhealthy :
    is_connected (some ()) false = false ∧
    RedisCache.get_age_seconds cacheCloseOnly settings_redis_key_close 100 = some 100 ∧
    health_check (some ()) false cacheCloseOnly 100 3600 = HealthStatus.unhealthy ∧
    health_check (some ()) false cacheCloseOnly 100 3600 ≠ HealthStatus.degraded := by
  refine ⟨rfl, by decide, by decide, by decide⟩

/-- C1 amended: when the store connectivity probe succeeds the status is
healthy; when it fails, the status is degraded exactly when the open key
reports a non-absent (existing, nonzero-age) cache entry, and unhealthy
exactly otherwise — the close key is never consulted. -/
theorem health_status_classification (client : Option Unit) (pingOk : Bool)
    (cache : RedisCache) (now ttl : Int) :
    (is_connected client pingOk = true →
      health_check client pingOk cache now ttl = HealthStatus.healthy) ∧
    (is_connected client pingOk = false →
      (health_check client pingOk cache now ttl = HealthStatus.degraded ↔
        pyTruthyAgeInt (cache.get_age_seconds settings_redis_key_open now) ≠ none) ∧
      (health_check client pingOk cache now ttl = HealthStatus.unhealthy ↔
        pyTruthyAgeInt (cache.get_age_seconds settings_redis_key_open now) = none)) := by
  constructor
  · intro h
    simp [health_check, get_cache_status, h]
  · intro h
    cases hopt : pyTruthyAgeInt (cache.get_age_seconds settings_redis_key_open now) with
    | none => simp [health_check, get_cache_status, h, hopt]
    | some a => simp [health_check, get_cache_status, h, hopt]

/-- C7: every store failure (disconnected client, raised network error or
timeout, missing key) makes the fetch return the absence signal with the
cache unchanged, and every failed connection attempt leaves the client
disconnected rather than propagating. -/
theorem store_client_total (client : Option Unit) (resp : StoreResp)
    (cache : RedisCache) (key : String) (now : Int) (a : ConnAttempt)
    (hfail : client = none ∨ (∃ e, redis_get resp = Except.error e) ∨
      resp = StoreResp.missing)
    (ha : a ≠ ConnAttempt.success) :
    get_from_redis client resp cache key now = (none, cache) ∧
    initialize_connection a = none := by
  constructor
  · rcases hfail with h | ⟨e, he⟩ | h
    · subst h; rfl
    · cases client with
      | none => rfl
      | some u =>
        unfold get_from_redis
        rw [he]
    · subst h; cases client <;> rfl
  · cases a with
    | success => exact absurd rfl ha
    | connectError => rfl
    | pingError => rfl

/-- Witness for C7: a timeout with no client, and a failed construction. -/
theorem store_client_total_witness :
    get_from_redis none StoreResp.timeout RedisCache.emptyCache "k" 0 =
      (none, RedisCache.emptyCache) ∧
    initialize_connection ConnAttempt.connectError = none :=
  store_client_total none StoreResp.timeout RedisCache.emptyCache "k" 0
    ConnAttempt.connectError (Or.inl rfl) (by decide)

/-- C8: for every cache state, resolve behaves identically — same result and
same final cache — whether the store is reachable with the key missing, the
client is disconnected, or the call raises a network error or timeout. -/
theorem missing_key_indistinguishable_from_down (cache : RedisCache) (key : String)
    (now ttl : Int) (resp : StoreResp) :
    (get_value (some ()) StoreResp.missing cache key now ttl =
      get_value none resp cache key now ttl) ∧
    (get_value (some ()) StoreResp.missing cache key now ttl =
      get_value (some ()) StoreResp.netError cache key now ttl) ∧
    (get_value (some ()) StoreResp.missing cache key now ttl =
      get_value (some ()) StoreResp.timeout cache key now ttl) :=
  ⟨rfl, rfl, rfl⟩

/-- C9: a store read that successfully returns the empty string is treated
exactly like an absent value by resolve — same result and same final cache as
a missing key — and the fetch never writes the empty string into the cache. -/
theorem empty_string_value_treated_as_absent (cache : RedisCache) (key : String)
    (now ttl : Int) :
    (get_value (some ()) (StoreResp.value "") cache key now ttl =
      get_value (some ()) StoreResp.missing cache key now ttl) ∧
    (get_from_redis (some ()) (StoreResp.value "") cache key now).2 = cache :=
  ⟨rfl, rfl⟩

/-- The fallback tail never modifies the cache, whatever it returns. -/
theorem resolve_fallback_snd (cache1 : RedisCache) (key : String) (now ttl : Int) :
    (resolve_fallback cache1 key now ttl).2 = cache1 := by
  unfold resolve_fallback
  cases cache1.get key with
  | none => rfl
  | some p =>
    obtain ⟨v, ts⟩ := p
    dsimp only
    split <;> rfl

/-- C10: whenever resolve fails with an Unavailable outcome, the local cache
is left exactly as it was before the call. -/
theorem resolve_failure_preserves_cache (client : Option Unit) (resp : StoreResp)
    (cache : RedisCache) (key : String) (now ttl : Int) (e : Unavailable)
    (h : (get_value client resp cache key now ttl).1 = Except.error e) :
    (get_value client resp cache key now ttl).2 = cache := by
  cases client with
  | none => exact resolve_fallback_snd cache key now ttl
  | some u =>
    cases resp with
    | missing => exact resolve_fallback_snd cache key now ttl
    | netError => exact resolve_fallback_snd cache key now ttl
    | timeout => exact resolve_fallback_snd cache key now ttl
    | value s =>
      by_cases hs : s = ""
      · subst hs
        exact resolve_fallback_snd cache key now ttl
      · exfalso
        have h1 : get_from_redis (some u) (StoreResp.value s) cache key now =
            (some s, cache.set key s now) := by
          show (if s = "" then (some s, cache) else (some s, cache.set key s now)) =
            (some s, cache.set key s now)
          rw [if_neg hs]
        have h2 : pyTruthyStr (some s) = true := decide_eq_true hs
        unfold get_value at h
        rw [h1] at h
        unfold get_value_after_fetch at h
        simp [h2] at h

/-- Witness for C10 at a failing call on the empty cache. -/
theorem resolve_failure_preserves_cache_witness :
    (get_value none StoreResp.missing RedisCache.emptyCache "k" 0 3600).2 =
      RedisCache.emptyCache :=
  resolve_failure_preserves_cache none StoreResp.missing RedisCache.emptyCache "k" 0 3600
    (Unavailable.noCachedValue "k") rfl

/-- Reading after a write: the written key sees the new pair, others are
unchanged. -/
theorem RedisCache.get_set (cache : RedisCache) (key value : String) (now : Int)
    (k : String) :
    (cache.set key value now).get k =
      if k = key then some (value, now) else cache.get k := rfl

/-- An entry found after a write is either the written pair or a pre-existing
entry for a different key. -/
theorem set_get_cases (cache : RedisCache) (key s : String) (now : Int)
    (k v : String) (t : Int)
    (h : (cache.set key s now).get k = some (v, t)) :
    (k = key ∧ v = s ∧ t = now) ∨ cache.get k = some (v, t) := by
  rw [RedisCache.get_set] at h
  by_cases hk : k = key
  · rw [if_pos hk] at h
    injection h with h1
    injection h1 with h2 h3
    exact Or.inl ⟨hk, h2.symm, h3.symm⟩
  · rw [if_neg hk] at h
    exact Or.inr h

/-- One resolve call either leaves the cache unchanged or, exactly when the
client is connected and the store returned a truthy string, overwrites the
looked-up key with that string at the call time. -/
theorem stepResolve_cases (cache : RedisCache) (op : ResolveOp) :
    stepResolve cache op = cache ∨
      ∃ s, op.client ≠ none ∧ op.resp = StoreResp.value s ∧ s ≠ "" ∧
        stepResolve cache op = cache.set op.key s op.now := by
  obtain ⟨client, resp, key, now, ttl⟩ := op
  cases client with
  | none => exact Or.inl (resolve_fallback_snd cache key now ttl)
  | some u =>
    cases resp with
    | missing => exact Or.inl (resolve_fallback_snd cache key now ttl)
    | netError => exact Or.inl (resolve_fallback_snd cache key now ttl)
    | timeout => exact Or.inl (resolve_fallback_snd cache key now ttl)
    | value s =>
      by_cases hs : s = ""
      · subst hs
        exact Or.inl (resolve_fallback_snd cache key now ttl)
      · refine Or.inr ⟨s, Option.some_ne_none u, rfl, hs, ?_⟩
        have h1 : get_from_redis (some u) (StoreResp.value s) cache key now =
            (some s, cache.set key s now) := by
          show (if s = "" then (some s, cache) else (some s, cache.set key s now)) =
            (some s, cache.set key s now)
          rw [if_neg hs]
        have h2 : pyTruthyStr (some s) = true := decide_eq_true hs
        unfold stepResolve get_value
        rw [h1]
        unfold get_value_after_fetch
        simp [h2]

/-- Trace invariant generalised over the initial cache: an entry in the
final cache was either present initially or written by a successful truthy
fetch in the trace. -/
theorem runResolves_entry_source (ops : List ResolveOp) (cache : RedisCache)
    (key v : String) (t : Int)
    (h : (runResolves ops cache).get key = some (v, t)) :
    cache.get key = some (v, t) ∨
      ∃ op ∈ ops, op.client ≠ none ∧ op.resp = StoreResp.value v ∧ v ≠ "" ∧
        op.key = key ∧ op.now = t := by
  induction ops generalizing cache with
  | nil => exact Or.inl h
  | cons op ops ih =>
    have h0 : (runResolves ops (stepResolve cache op)).get key = some (v, t) := h
    rcases ih (stepResolve cache op) h0 with h1 | h1
    · rcases stepResolve_cases cache op with hstep | ⟨s, hcl, hresp, hne, hstep⟩
      · rw [hstep] at h1
        exact Or.inl h1
      · rw [hstep] at h1
        rcases set_get_cases cache op.key s op.now key v t h1 with ⟨hk, hv, ht⟩ | h2
        · subst hv
          exact Or.inr ⟨op, List.mem_cons_self op ops, hcl, hresp, hne, hk.symm, ht.symm⟩
        · exact Or.inl h2
    · obtain ⟨o, ho, hrest⟩ := h1
      exact Or.inr ⟨o, List.mem_cons_of_mem op ho, hrest⟩

/-- C6: starting from the empty cache, every entry in the cache after a
sequence of resolve calls was written by a successful live fetch in that
sequence returning exactly that value for that key at that time; the
fallback path never populates the cache. -/
theorem cache_only_populated_by_successful_fetch (ops : List ResolveOp)
    (key v : String) (t : Int)
    (h : (runResolves ops RedisCache.emptyCache).get key = some (v, t)) :
    ∃ op ∈ ops, op.client ≠ none ∧ op.resp = StoreResp.value v ∧ v ≠ "" ∧
      op.key = key ∧ op.now = t := by
  rcases runResolves_entry_source ops RedisCache.emptyCache key v t h with h1 | h1
  · exact Option.noConfusion h1
  · exact h1

/-- A single successful fetch of the key k. -/
def opsSingleFetch : List ResolveOp :=
  [⟨some (), StoreResp.value "10:00", "k", 5, 3600⟩]

/-- Witness for C6: after one successful fetch the entry exists and the
invariant names that fetch. -/
theorem cache_only_populated_by_successful_fetch_witness :
    (runResolves opsSingleFetch RedisCache.emptyCache).get "k" = some ("10:00", 5) ∧
    ∃ op ∈ opsSingleFetch, op.client ≠ none ∧ op.resp = StoreResp.value "10:00" ∧
      "10:00" ≠ "" ∧ op.key = "k" ∧ op.now = 5 :=
  ⟨rfl, cache_only_populated_by_successful_fetch opsSingleFetch "k" "10:00" 5 rfl⟩

end B3
